import Mathlib

/-!
Shallow embedding of `pythonserver2.py`: a single-file HTTP server that
resolves a GET request path against a server root directory and routes it
through an ordered chain of case handlers (`CASES`), plus a stub POST
handler that echoes the request body.

The filesystem is modelled as a snapshot (`FileSystem`) of the parts the
server consults: regular files with their byte contents and directories
with their entry lists.  String/path helpers mirror the Python standard
library functions the source calls (`str.startswith`, `str.endswith`,
`posixpath.normpath`, `posixpath.join`, `str.encode`), implemented here by
structural recursion so that every definition evaluates inside the kernel.
-/

namespace PyServer

/-- Byte strings, as produced by Python `bytes` values. -/
abbrev Bytes := List Nat

/-- The UTF-8 encoding of a single character from its code point. -/
def utf8Char (c : Char) : Bytes :=
  let n := c.toNat
  if n < 128 then [n]
  else if n < 2048 then [192 + n / 64, 128 + n % 64]
  else if n < 65536 then [224 + n / 4096, 128 + n / 64 % 64, 128 + n % 64]
  else [240 + n / 262144, 128 + n / 4096 % 64, 128 + n / 64 % 64, 128 + n % 64]

/-- Python `s.encode(\x27utf-8\x27)`. -/
def encodeUtf8 (s : String) : Bytes :=
  s.data.foldr (fun c acc => utf8Char c ++ acc) []

/-- Python `s.startswith(pre)`. -/
def pyStartsWith (s pre : String) : Bool :=
  pre.data.isPrefixOf s.data

/-- Python `s.endswith(suf)`. -/
def pyEndsWith (s suf : String) : Bool :=
  suf.data.isSuffixOf s.data

/-- Helper for `splitSlash`: accumulates the current component (reversed). -/
def splitSlashAux : List Char → List Char → List String
  | [], acc => [String.mk acc.reverse]
  | c :: rest, acc =>
    if c = '/' then String.mk acc.reverse :: splitSlashAux rest []
    else splitSlashAux rest (c :: acc)

/-- Python `path.split(\x27/\x27)`: pieces between slashes, empty pieces kept. -/
def splitSlash (s : String) : List String :=
  splitSlashAux s.data []

/-- Python `sep.join(parts)`. -/
def joinWith (sep : String) : List String → String
  | [] => ""
  | p :: ps => ps.foldl (fun acc q => acc ++ sep ++ q) p

/-- The component loop of `posixpath.normpath`: drops empty and `.`
components, pops on `..` where possible (keeping `..` only when the path
is relative and the stack is empty, or stacked on another `..`). -/
def normComps (initialSlashes : Nat) : List String → List String → List String
  | acc, [] => acc
  | acc, comp :: rest =>
    if comp = "" ∨ comp = "." then normComps initialSlashes acc rest
    else if comp ≠ ".." ∨ (initialSlashes = 0 ∧ acc = []) ∨ acc.getLast? = some ".." then
      normComps initialSlashes (acc ++ [comp]) rest
    else if acc ≠ [] then normComps initialSlashes acc.dropLast rest
    else normComps initialSlashes acc rest

/-- Model of `posixpath.normpath`, including its special case that exactly two
leading slashes are preserved. -/
def normpath (path : String) : String :=
  if path = "" then "."
  else
    let initialSlashes : Nat :=
      if pyStartsWith path "/" then
        if pyStartsWith path "//" && !(pyStartsWith path "///") then 2 else 1
      else 0
    let comps := normComps initialSlashes [] (splitSlash path)
    let joined := joinWith "/" comps
    let out :=
      (if initialSlashes = 2 then "//" else if initialSlashes = 1 then "/" else "") ++ joined
    if out = "" then "." else out

/-- Model of `os.path.abspath` for the inputs this server passes it: `do_GET` always
calls it on `os.getcwd() + self.path`, which is absolute because `getcwd`
returns an absolute path, and on absolute input `abspath` is `normpath`. -/
def abspath (p : String) : String := normpath p

/-- Model of `posixpath.join` on two components, as used for `index.path` and the
listing links: an absolute second component replaces the first, otherwise
a separator is inserted unless one is already present. -/
def pathJoin (a b : String) : String :=
  if pyStartsWith b "/" then b
  else if a = "" || pyEndsWith a "/" then a ++ b
  else a ++ "/" ++ b

/-- Lexicographic comparison of code-point sequences: the order Python
uses to compare strings. -/
def charListLeB : List Char → List Char → Bool
  | [], _ => true
  | _ :: _, [] => false
  | a :: as, b :: bs =>
    if a.toNat < b.toNat then true
    else if b.toNat < a.toNat then false
    else charListLeB as bs

/-- Python's ≤ on strings: lexicographic by code point. -/
def pyStrLeB (a b : String) : Bool := charListLeB a.data b.data

instance pyStrLeB_isTotal : IsTotal String (fun a b => pyStrLeB a b = true) where
  total a b := by
    unfold pyStrLeB
    generalize a.data = x
    generalize b.data = y
    induction x generalizing y with
    | nil => left; rfl
    | cons xa xs ih =>
      cases y with
      | nil => right; rfl
      | cons ya ys =>
        rcases Nat.lt_trichotomy xa.toNat ya.toNat with h | h | h
        · left; rw [charListLeB, if_pos h]
        · rcases ih ys with hy | hy
          · left; rw [charListLeB, if_neg (by omega), if_neg (by omega)]; exact hy
          · right; rw [charListLeB, if_neg (by omega), if_neg (by omega)]; exact hy
        · right; rw [charListLeB, if_pos h]

instance pyStrLeB_isTrans : IsTrans String (fun a b => pyStrLeB a b = true) where
  trans a b c hab hbc := by
    unfold pyStrLeB at hab hbc ⊢
    generalize hga : a.data = x at hab
    generalize hgb : b.data = y at hab hbc
    generalize hgc : c.data = z at hbc
    clear hga hgb hgc
    induction x generalizing y z with
    | nil => rfl
    | cons xa xs ih =>
      cases y with
      | nil => cases hab
      | cons ya ys =>
        cases z with
        | nil => cases hbc
        | cons za zs =>
          rw [charListLeB] at hab hbc ⊢
          by_cases h1 : xa.toNat < ya.toNat
          · by_cases h2 : ya.toNat < za.toNat
            · rw [if_pos (by omega)]
            · by_cases h3 : za.toNat < ya.toNat
              · rw [if_neg h2, if_pos h3] at hbc; cases hbc
              · rw [if_pos (by omega)]
          · by_cases h4 : ya.toNat < xa.toNat
            · rw [if_neg h1, if_pos h4] at hab; cases hab
            · by_cases h2 : ya.toNat < za.toNat
              · rw [if_pos (by omega)]
              · by_cases h3 : za.toNat < ya.toNat
                · rw [if_neg h2, if_pos h3] at hbc; cases hbc
                · rw [if_neg h1, if_neg h4] at hab
                  rw [if_neg h2, if_neg h3] at hbc
                  rw [if_neg (by omega), if_neg (by omega)]
                  apply ih <;> assumption

/-- Snapshot of the parts of the filesystem the server consults: regular
files with their contents and directories with their entry lists. -/
structure FileSystem where
  files : String → Option Bytes
  dirs : String → Option (List String)

/-- Model of `os.path.isfile`. -/
def isfile (fs : FileSystem) (p : String) : Bool := (fs.files p).isSome

/-- Model of `os.path.isdir`. -/
def isdir (fs : FileSystem) (p : String) : Bool := (fs.dirs p).isSome

/-- Model of `os.path.exists`: the path names a regular file or a directory. -/
def pathExists (fs : FileSystem) (p : String) : Bool := isfile fs p || isdir fs p

/-- An HTTP response as the handler emits it: status code, the value of
the Content-Type header, and the body bytes written to the socket (the
Content-Length header is always the length of the body). -/
structure Response where
  status : Nat
  contentType : String
  body : Bytes
deriving DecidableEq

/-- The template `RequestHandler.ERROR_PAGE` with `{path}` and `{msg}` substituted, the
lines of the template joined by the newlines the triple-quoted Python
literal contains. -/
def ERROR_PAGE (path msg : String) : String :=
  "<html>\n<head><title>Error accessing " ++ path ++ "</title></head>\n<body>\n<h1>Error accessing "
    ++ path ++ "</h1>\n<p>" ++ msg ++ "</p>\n</body>\n</html>"

/-- The template `RequestHandler.LISTING_PAGE` with `{path}` and `{items}` substituted. -/
def LISTING_PAGE (path items : String) : String :=
  "<html>\n<head><title>Directory listing for " ++ path ++ "</title></head>\n<body>\n<h2>Directory listing for "
    ++ path ++ "</h2>\n<hr>\n<ul>\n" ++ items ++ "\n</ul>\n<hr>\n</body>\n</html>"

/-- The template `RequestHandler.ROOT_PAGE` with the five table values substituted;
`client_port` is an integer, rendered by `format` as its decimal string. -/
def ROOT_PAGE (dateTime clientHost : String) (clientPort : Nat) (command path : String) : String :=
  "<html>\n<head><title>Server Info</title></head>\n<body>\n<h1>Server Information</h1>\n<table border=\"1\">\n<tr><th>Header</th><th>Value</th></tr>\n<tr><td>Date and time</td><td>"
    ++ dateTime ++ "</td></tr>\n<tr><td>Client host</td><td>" ++ clientHost
    ++ "</td></tr>\n<tr><td>Client port</td><td>" ++ Nat.repr clientPort
    ++ "</td></tr>\n<tr><td>Command</td><td>" ++ command
    ++ "</td></tr>\n<tr><td>Path</td><td>" ++ path ++ "</td></tr>\n</table>\n</body>\n</html>"

/-- Model of `RequestHandler.handle_error`: renders `ERROR_PAGE` for the request
path and message and sends it with the given status (default 404 at the
call sites that omit it) and Content-Type text/html. -/
def handle_error (path msg : String) (status : Nat) : Response :=
  ⟨status, "text/html", encodeUtf8 (ERROR_PAGE path msg)⟩

/-- Model of `RequestHandler.send_content`: status 200 (its default, the only value
the source ever uses) and Content-Type text/html. -/
def send_content (content : Bytes) : Response :=
  ⟨200, "text/html", content⟩

/-- The MIME detection chain inlined in `RequestHandler.handle_file`. -/
def mimeType (full_path : String) : String :=
  if pyEndsWith full_path ".html" then "text/html"
  else if pyEndsWith full_path ".css" then "text/css"
  else if pyEndsWith full_path ".js" then "application/javascript"
  else if pyEndsWith full_path ".png" then "image/png"
  else if pyEndsWith full_path ".jpg" || pyEndsWith full_path ".jpeg" then "image/jpeg"
  else "text/plain"

/-- Result of one case handler's `act`: a response sent, a
`ServerException` raised with a message (caught by `do_GET`), or the CGI
runner invoked on a script path. -/
inductive ActResult where
  | ok (r : Response)
  | exn (msg : String)
  | cgiRun (full_path : String)
deriving DecidableEq

/-- Model of `RequestHandler.handle_file`: reads the whole file and sends it with
status 200 and the MIME type from the extension chain.  In the snapshot a
regular file always reads as its recorded contents; a path with no
recorded file raises IOError, which the method turns into
`ServerException("Cannot read file: ...")`. -/
def handle_file (fs : FileSystem) (full_path : String) : ActResult :=
  match fs.files full_path with
  | some content => .ok ⟨200, mimeType full_path, content⟩
  | none => .exn ("Cannot read file: " ++ full_path)

/-- Model of `RequestHandler.list_dir`: sorts the entries, skips names starting
with a dot, renders one list item per remaining entry linking to the
request path joined with the entry name, and sends the listing page.
`sorted` is modelled by insertion sort starting at the ≤ order on strings
(directory entries are distinct, and any sorted permutation of a
duplicate-free list is unique).  A path with no recorded directory raises
OSError, turned into `ServerException`; the OSError text appended to that
message is environmental and omitted here. -/
def list_dir (fs : FileSystem) (path full_path : String) : ActResult :=
  match fs.dirs full_path with
  | some entries =>
    let sortedEntries := List.insertionSort (fun a b => pyStrLeB a b = true) entries
    let items := (sortedEntries.filter (fun e => !(pyStartsWith e "."))).map
      (fun e => "<li><a href=\"" ++ pathJoin path e ++ "\">" ++ e ++ "</a></li>")
    .ok (send_content (encodeUtf8 (LISTING_PAGE path (joinWith "\n" items))))
  | none => .exn ("\x27" ++ path ++ "\x27 cannot be listed")

/-- The six case-handler classes, in the order `CASES` instantiates them. -/
inductive CaseKind where
  | CaseNoFile
  | CaseExistingFile
  | CaseDirectoryIndexFile
  | CaseDirectoryNoIndexFile
  | CaseCGIFile
  | CaseAlwaysFail
deriving DecidableEq

/-- Model of `BaseCase.index_path`: the handler's full path joined with index.html. -/
def index_path (full_path : String) : String :=
  pathJoin full_path "index.html"

/-- The `test` method of each case, over the resolved full path. -/
def caseTest (fs : FileSystem) (full_path : String) : CaseKind → Bool
  | .CaseNoFile => !(pathExists fs full_path)
  | .CaseExistingFile => isfile fs full_path
  | .CaseDirectoryIndexFile => isdir fs full_path && isfile fs (index_path full_path)
  | .CaseDirectoryNoIndexFile => isdir fs full_path && !(isfile fs (index_path full_path))
  | .CaseCGIFile => isfile fs full_path && pyEndsWith full_path ".py"
  | .CaseAlwaysFail => true

/-- The `act` method of each case.  `path` is the raw request path the
exception messages embed; `full_path` is the resolved filesystem path. -/
def caseAct (fs : FileSystem) (path full_path : String) : CaseKind → ActResult
  | .CaseNoFile => .exn ("\x27" ++ path ++ "\x27 not found")
  | .CaseExistingFile => handle_file fs full_path
  | .CaseDirectoryIndexFile => handle_file fs (index_path full_path)
  | .CaseDirectoryNoIndexFile => list_dir fs path full_path
  | .CaseCGIFile => .cgiRun full_path
  | .CaseAlwaysFail => .exn ("Unknown object \x27" ++ path ++ "\x27")

/-- The list `RequestHandler.CASES`, in source order. -/
def CASES : List CaseKind :=
  [.CaseNoFile, .CaseExistingFile, .CaseDirectoryIndexFile,
   .CaseDirectoryNoIndexFile, .CaseCGIFile, .CaseAlwaysFail]

/-- The case loop of `do_GET`: the first case whose test returns true has
its act run and the loop breaks; `none` when no case matched (unreachable
for `CASES`, whose last case always matches). -/
def runCases (fs : FileSystem) (path full_path : String) : List CaseKind → Option ActResult
  | [] => none
  | k :: rest =>
    if caseTest fs full_path k then some (caseAct fs path full_path k)
    else runCases fs path full_path rest

/-- Outcome of `subprocess.run([python, script], capture_output=True,
check=True)`: captured stdout on exit code 0, `CalledProcessError`
carrying stderr on a non-zero exit, or any other exception. -/
inductive CgiOutcome where
  | success (stdout : String)
  | calledProcessError (stderr : String)
  | otherError (msg : String)

/-- The environment's behaviour when a script path is executed. -/
def CgiEnv := String → CgiOutcome

/-- Model of `RequestHandler.run_cgi`: sends the script's stdout on success and an
error page with status 500 on any failure; it catches its own exceptions,
so it always produces a response. -/
def run_cgi (env : CgiEnv) (path full_path : String) : Response :=
  match env full_path with
  | .success out => send_content (encodeUtf8 out)
  | .calledProcessError err => handle_error path ("CGI script error: " ++ err) 500
  | .otherError e => handle_error path ("Error running CGI: " ++ e) 500

/-- Model of `RequestHandler.do_GET`.  Here `root` is `os.getcwd()`.  A literal "/"
path short-circuits to the root info page; otherwise the path is resolved
with `abspath`, checked against the root with `str.startswith`, and fed
through the case loop.  A `ServerException` from a case becomes an error
page with status 404.  The result is `none` only if no case matched,
which cannot happen for `CASES`. -/
def do_GET (fs : FileSystem) (env : CgiEnv) (root dateTime clientHost : String)
    (clientPort : Nat) (path : String) : Option Response :=
  if path = "/" then
    some (send_content (encodeUtf8 (ROOT_PAGE dateTime clientHost clientPort "GET" path)))
  else
    let full_path := abspath (root ++ path)
    if !(pyStartsWith full_path root) then
      some (handle_error path "Attempted directory traversal" 404)
    else
      match runCases fs path full_path CASES with
      | some (.ok r) => some r
      | some (.exn msg) => some (handle_error path msg 404)
      | some (.cgiRun p) => some (run_cgi env path p)
      | none => none

/-- Decimal digit-string value, `none` unless nonempty and all digits. -/
def parseDigitList (l : List Char) : Option Nat :=
  if l ≠ [] ∧ l.all Char.isDigit then
    some (l.foldl (fun acc c => acc * 10 + (c.toNat - 48)) 0)
  else none

/-- Python `int(s)` restricted to the plain decimal numerals (optionally
negative) that HTTP Content-Length values take; other accepted Python
spellings (whitespace, underscores, a leading +) are not modelled.
`none` models the `ValueError` that `int` raises. -/
def pyInt (s : String) : Option Int :=
  match s.data with
  | '-' :: rest => (parseDigitList rest).map (fun n => -(n : Int))
  | l => (parseDigitList l).map (fun n => (n : Int))

/-- Model of `self.rfile.read(n)`: the next `n` bytes of the connection stream
(`n = 0` reads nothing; a negative `n` reads the whole stream). -/
def readBytes (n : Int) (stream : Bytes) : Bytes :=
  if n < 0 then stream else stream.take n.toNat

/-- Model of `RequestHandler.do_POST`: the Content-Length header is read with
default 0 (`int(0) = 0`), that many body bytes are read and echoed back
prefixed with "Received: " at status 200 and Content-Type text/plain; an
unparsable header raises ValueError, caught into an error page with
status 500 (the ValueError text is environmental and abbreviated). -/
def do_POST (path : String) (contentLengthHeader : Option String) (rfile : Bytes) : Response :=
  match (match contentLengthHeader with | none => some (0 : Int) | some s => pyInt s) with
  | some n =>
    let post_data := readBytes n rfile
    ⟨200, "text/plain", encodeUtf8 "Received: " ++ post_data⟩
  | none => handle_error path "Error processing POST: invalid literal for int()" 500

/-- The visible entries of a listing, exactly as the loop in `list_dir`
produces them: the entries sorted, with dot-entries skipped. -/
def visibleEntries (entries : List String) : List String :=
  (List.insertionSort (fun a b => pyStrLeB a b = true) entries).filter
    (fun e => !(pyStartsWith e "."))

/-! ## Concrete snapshots used by witnesses and counterexamples -/

/-- A CGI environment whose scripts all succeed with empty output. -/
def envQuiet : CgiEnv := fun _ => .success ""

/-- Snapshot for C1: `/srv2/x` is a regular file, nothing else exists. -/
def fsC1 : FileSystem :=
  ⟨fun p => if p = "/srv2/x" then some [104, 105] else none, fun _ => none⟩

/-- The empty snapshot: nothing exists. -/
def fsEmpty : FileSystem := ⟨fun _ => none, fun _ => none⟩

/-- Snapshot for C2: the resolved path is a directory without index.html,
so the DirectoryListing case and the later always-matching Fallback case
both test true. -/
def fsC2 : FileSystem :=
  ⟨fun _ => none, fun p => if p = "/srv/d" then some [] else none⟩

/-- Snapshot for C3: an existing regular .py file. -/
def fsC3 : FileSystem :=
  ⟨fun p => if p = "/srv/a.py" then some [35] else none, fun _ => none⟩

/-- Snapshot for C4: an existing regular .css file with contents [1, 2]. -/
def fsC4 : FileSystem :=
  ⟨fun p => if p = "/srv/s.css" then some [1, 2] else none, fun _ => none⟩

/-- Snapshot for C6: a directory with entries ["b", ".x", "a"] and no
index.html. -/
def fsC6 : FileSystem :=
  ⟨fun _ => none, fun p => if p = "/srv/d" then some ["b", ".x", "a"] else none⟩

/-- Snapshot for C7: directory /srv/d containing a regular index.html. -/
def fsC7 : FileSystem :=
  ⟨fun p => if p = "/srv/d/index.html" then some [60] else none,
   fun p => if p = "/srv/d" then some ["index.html"] else none⟩

/-! ## Generic facts about the case loop -/

theorem runCases_cons (fs : FileSystem) (path full_path : String) (k : CaseKind)
    (rest : List CaseKind) :
    runCases fs path full_path (k :: rest) =
      if caseTest fs full_path k then some (caseAct fs path full_path k)
      else runCases fs path full_path rest := rfl

/-- The loop returns the act of the head of the first matching case: if
every case in the prefix `l₁` tests false and `k` tests true, the result
is `k`'s act, whatever follows `k`. -/
theorem runCases_first (fs : FileSystem) (path full_path : String)
    (l₁ l₂ : List CaseKind) (k : CaseKind)
    (h1 : ∀ j ∈ l₁, caseTest fs full_path j = false)
    (hk : caseTest fs full_path k = true) :
    runCases fs path full_path (l₁ ++ k :: l₂) = some (caseAct fs path full_path k) := by
  induction l₁ with
  | nil => simp [runCases_cons, hk]
  | cons a rest ih =>
    have ha : caseTest fs full_path a = false := h1 a (List.mem_cons_self a rest)
    rw [List.cons_append, runCases_cons, ha]
    simpa using ih (fun j hj => h1 j (List.mem_cons_of_mem a hj))

/-- Complete evaluation of the chain on a snapshot: the selected case and
its result are determined by whether the resolved path is a regular file,
a directory, and whether its index.html is a regular file. -/
theorem runCases_CASES_eval (fs : FileSystem) (path full_path : String) :
    runCases fs path full_path CASES =
      match fs.files full_path, fs.dirs full_path, fs.files (index_path full_path) with
      | some c, _, _ => some (ActResult.ok ⟨200, mimeType full_path, c⟩)
      | none, none, _ => some (ActResult.exn ("\x27" ++ path ++ "\x27 not found"))
      | none, some _, some c =>
          some (ActResult.ok ⟨200, mimeType (index_path full_path), c⟩)
      | none, some _, none => some (list_dir fs path full_path) := by
  cases hf : fs.files full_path with
  | some c =>
    simp [CASES, runCases, caseTest, caseAct, pathExists, isfile, isdir, handle_file, hf]
  | none =>
    cases hd : fs.dirs full_path with
    | none =>
      simp [CASES, runCases, caseTest, caseAct, pathExists, isfile, isdir, hf, hd]
    | some es =>
      cases hfi : fs.files (index_path full_path) with
      | some c =>
        simp [CASES, runCases, caseTest, caseAct, pathExists, isfile, isdir, handle_file,
          hf, hd, hfi]
      | none =>
        simp [CASES, runCases, caseTest, caseAct, pathExists, isfile, isdir, handle_file,
          hf, hd, hfi]

/-- The chain always produces a result (the final case always matches). -/
theorem runCases_CASES_isSome (fs : FileSystem) (path full_path : String) :
    (runCases fs path full_path CASES).isSome := by
  rw [runCases_CASES_eval]
  cases hf : fs.files full_path <;>
    cases hd : fs.dirs full_path <;>
    cases hfi : fs.files (index_path full_path) <;> simp

/-- The chain never selects the CGI case: its result is never a CGI run. -/
theorem runCases_CASES_ne_cgiRun (fs : FileSystem) (path full_path p : String)
    (h : runCases fs path full_path CASES = some (ActResult.cgiRun p)) : False := by
  rw [runCases_CASES_eval] at h
  cases hf : fs.files full_path <;> rw [hf] at h
  · cases hd : fs.dirs full_path <;> rw [hd] at h
    · simp at h
    · cases hfi : fs.files (index_path full_path) <;> rw [hfi] at h
      · simp [list_dir, hd] at h
      · simp at h
  · simp at h

/-! ## Claim theorems -/

/-- C2: the case chain evaluates the tests of the fixed, ordered case
list in order, and the first case whose test returns true has its act
executed and its result is final, whatever the later cases' tests would
return: decomposing `CASES` as a prefix of non-matching cases followed by
a matching case `k`, the loop's result is exactly `k`'s act. -/
theorem C2_first_match_wins (fs : FileSystem) (path full_path : String)
    (l₁ l₂ : List CaseKind) (k : CaseKind)
    (hdecomp : CASES = l₁ ++ k :: l₂)
    (hfirst : ∀ j ∈ l₁, caseTest fs full_path j = false)
    (hk : caseTest fs full_path k = true) :
    runCases fs path full_path CASES = some (caseAct fs path full_path k) := by
  rw [hdecomp]
  exact runCases_first fs path full_path l₁ l₂ k hfirst hk

/-- Witness for C2: the DirectoryListing case and the later Fallback case
both match; the chain returns the earlier case's act. -/
theorem C2_first_match_wins_witness :
    caseTest fsC2 "/srv/d" CaseKind.CaseAlwaysFail = true ∧
    runCases fsC2 "/d" "/srv/d" CASES
      = some (caseAct fsC2 "/d" "/srv/d" CaseKind.CaseDirectoryNoIndexFile) :=
  ⟨by decide,
   C2_first_match_wins fsC2 "/d" "/srv/d"
     [CaseKind.CaseNoFile, CaseKind.CaseExistingFile, CaseKind.CaseDirectoryIndexFile]
     [CaseKind.CaseCGIFile, CaseKind.CaseAlwaysFail]
     CaseKind.CaseDirectoryNoIndexFile rfl (by decide) (by decide)⟩

/-- C3: the ExecutableScript case is never the first matching case.  Its
test implies the test of the PlainFile case, which precedes it, so every
context the CGI case would claim is claimed by the PlainFile case and the
chain serves the script's bytes via handle_file; consequently `do_GET`
never invokes the CGI runner and is independent of its behaviour. -/
theorem C3_cgi_never_selected :
    (∀ (fs : FileSystem) (full_path : String),
        caseTest fs full_path CaseKind.CaseCGIFile = true →
          List.find? (caseTest fs full_path) CASES = some CaseKind.CaseExistingFile ∧
          ∀ path, runCases fs path full_path CASES = some (handle_file fs full_path)) ∧
    (∀ (fs : FileSystem) (env env2 : CgiEnv) (root dateTime clientHost : String)
        (clientPort : Nat) (path : String),
        do_GET fs env root dateTime clientHost clientPort path
          = do_GET fs env2 root dateTime clientHost clientPort path) := by
  constructor
  · intro fs full_path hcgi
    have hfile : isfile fs full_path = true := by
      have := hcgi
      simp only [caseTest, Bool.and_eq_true] at this
      exact this.1
    have hno : caseTest fs full_path CaseKind.CaseNoFile = false := by
      simp [caseTest, pathExists, hfile]
    constructor
    · simp [CASES, List.find?, caseTest, pathExists, hfile]
    · intro path
      have := runCases_first fs path full_path [CaseKind.CaseNoFile]
        [CaseKind.CaseDirectoryIndexFile, CaseKind.CaseDirectoryNoIndexFile,
         CaseKind.CaseCGIFile, CaseKind.CaseAlwaysFail]
        CaseKind.CaseExistingFile
        (by intro j hj
            rcases List.mem_cons.mp hj with rfl | hj
            · exact hno
            · cases hj)
        (by simpa [caseTest] using hfile)
      exact this
  · intro fs env env2 root dateTime clientHost clientPort path
    unfold do_GET
    by_cases hp : path = "/"
    · rw [if_pos hp, if_pos hp]
    · rw [if_neg hp, if_neg hp]
      cases hs : pyStartsWith (abspath (root ++ path)) root
      · simp [hs]
      · simp only [hs, Bool.not_true, Bool.false_eq_true, if_false]
        cases hrun : runCases fs path (abspath (root ++ path)) CASES with
        | none => rfl
        | some a =>
          cases a with
          | ok r => rfl
          | exn msg => rfl
          | cgiRun p => exact absurd hrun (fun h => runCases_CASES_ne_cgiRun fs path _ p h)

/-- Witness for C3 at an existing .py file: the first match is the
PlainFile case and the chain result is its file-serving act. -/
theorem C3_cgi_never_selected_witness :
    List.find? (caseTest fsC3 "/srv/a.py") CASES = some CaseKind.CaseExistingFile ∧
    runCases fsC3 "/a.py" "/srv/a.py" CASES = some (handle_file fsC3 "/srv/a.py") :=
  ⟨(C3_cgi_never_selected.1 fsC3 "/srv/a.py" (by decide)).1,
   (C3_cgi_never_selected.1 fsC3 "/srv/a.py" (by decide)).2 "/a.py"⟩

/-- C9: a GET for the literal path "/" returns the fixed informational
page (the ROOT_PAGE table of date/time, client host, client port, command
and path) with status 200, without consulting the filesystem, the CGI
environment, the server root or the traversal check: the response is the
same for every snapshot and every root. -/
theorem C9_root_page (fs fs2 : FileSystem) (env env2 : CgiEnv)
    (root root2 dateTime clientHost : String) (clientPort : Nat) :
    do_GET fs env root dateTime clientHost clientPort "/"
        = some ⟨200, "text/html",
            encodeUtf8 (ROOT_PAGE dateTime clientHost clientPort "GET" "/")⟩ ∧
    do_GET fs env root dateTime clientHost clientPort "/"
        = do_GET fs2 env2 root2 dateTime clientHost clientPort "/" := by
  constructor <;> simp [do_GET, send_content]

/-- C4: a GET resolving to an existing regular file returns status 200,
a body byte-identical to the file's contents, and a Content-Type
determined solely by the resolved path's extension through the static
chain in handle_file. -/
theorem C4_existing_file (fs : FileSystem) (env : CgiEnv)
    (root dateTime clientHost : String) (clientPort : Nat) (path : String) (content : Bytes)
    (hroot : pyStartsWith root "/" = true)
    (hpath : path ≠ "/")
    (hpre : pyStartsWith (abspath (root ++ path)) root = true)
    (hfile : fs.files (abspath (root ++ path)) = some content) :
    do_GET fs env root dateTime clientHost clientPort path
      = some ⟨200, mimeType (abspath (root ++ path)), content⟩ := by
  simp only [do_GET, if_neg hpath, hpre, Bool.not_true, Bool.false_eq_true, if_false,
    runCases_CASES_eval, hfile]

/-- Witness for C4: serving an existing .css file yields its bytes with
Content-Type text/css from the extension table. -/
theorem C4_existing_file_witness :
    do_GET fsC4 envQuiet "/srv" "dt" "h" 1 "/s.css"
        = some ⟨200, mimeType (abspath ("/srv" ++ "/s.css")), [1, 2]⟩ ∧
    mimeType (abspath ("/srv" ++ "/s.css")) = "text/css" :=
  ⟨C4_existing_file fsC4 envQuiet "/srv" "dt" "h" 1 "/s.css" [1, 2]
     (by decide) (by decide) (by decide) (by decide),
   by decide⟩

/-- C6: a GET resolving to a directory without index.html returns the
listing page with Content-Type text/html, whose items are exactly the
entries not starting with a dot, in lexicographically sorted order, each
linking to the request path joined with the entry name. -/
theorem C6_directory_listing (fs : FileSystem) (env : CgiEnv)
    (root dateTime clientHost : String) (clientPort : Nat) (path : String)
    (entries : List String)
    (hroot : pyStartsWith root "/" = true)
    (hpath : path ≠ "/")
    (hpre : pyStartsWith (abspath (root ++ path)) root = true)
    (hnofile : fs.files (abspath (root ++ path)) = none)
    (hdir : fs.dirs (abspath (root ++ path)) = some entries)
    (hnoindex : fs.files (index_path (abspath (root ++ path))) = none) :
    do_GET fs env root dateTime clientHost clientPort path
        = some (send_content (encodeUtf8 (LISTING_PAGE path (joinWith "\n"
            ((visibleEntries entries).map
              (fun e => "<li><a href=\"" ++ pathJoin path e ++ "\">" ++ e ++ "</a></li>")))))) ∧
    List.Pairwise (fun a b => pyStrLeB a b = true) (visibleEntries entries) ∧
    (∀ e ∈ visibleEntries entries, pyStartsWith e "." = false) ∧
    (∀ e, e ∈ visibleEntries entries ↔ e ∈ entries ∧ pyStartsWith e "." = false) := by
  refine ⟨?_, ?_, ?_, ?_⟩
  · simp only [do_GET, if_neg hpath, hpre, Bool.not_true, Bool.false_eq_true, if_false,
      runCases_CASES_eval, hnofile, hdir, hnoindex, list_dir, visibleEntries]
  · exact (List.sorted_insertionSort (fun a b => pyStrLeB a b = true) entries).filter _
  · intro e he
    have := (List.mem_filter.mp he).2
    simpa using this
  · intro e
    constructor
    · intro he
      rcases List.mem_filter.mp he with ⟨hs, hp⟩
      exact ⟨(List.perm_insertionSort _ entries).mem_iff.mp hs, by simpa using hp⟩
    · rintro ⟨hm, hp⟩
      exact List.mem_filter.mpr ⟨(List.perm_insertionSort _ entries).mem_iff.mpr hm,
        by simpa using hp⟩

/-- Witness for C6: the directory with entries ["b", ".x", "a"] lists
exactly "a" then "b", hiding ".x". -/
theorem C6_directory_listing_witness :
    do_GET fsC6 envQuiet "/srv" "dt" "h" 1 "/d"
        = some (send_content (encodeUtf8 (LISTING_PAGE "/d" (joinWith "\n"
            ((visibleEntries ["b", ".x", "a"]).map
              (fun e => "<li><a href=\"" ++ pathJoin "/d" e ++ "\">" ++ e ++ "</a></li>")))))) ∧
    List.Pairwise (fun a b => pyStrLeB a b = true) (visibleEntries ["b", ".x", "a"]) ∧
    visibleEntries ["b", ".x", "a"] = ["a", "b"] := by
  have h := C6_directory_listing fsC6 envQuiet "/srv" "dt" "h" 1 "/d" ["b", ".x", "a"]
    (by decide) (by decide) (by decide) (by decide) (by decide) (by decide)
  exact ⟨h.1, h.2.1, by decide⟩

/-- C7: for a directory containing a regular index.html, the response to
a GET resolving to the directory equals the response to a GET resolving
to its index.html, and both serve the index file's contents at 200. -/
theorem C7_directory_index (fs : FileSystem) (env : CgiEnv)
    (root dateTime clientHost : String) (clientPort : Nat) (p1 p2 : String) (content : Bytes)
    (hroot : pyStartsWith root "/" = true)
    (hp1 : p1 ≠ "/") (hp2 : p2 ≠ "/")
    (hres2 : abspath (root ++ p2) = index_path (abspath (root ++ p1)))
    (hpre1 : pyStartsWith (abspath (root ++ p1)) root = true)
    (hpre2 : pyStartsWith (abspath (root ++ p2)) root = true)
    (hnotfile : fs.files (abspath (root ++ p1)) = none)
    (hdir : isdir fs (abspath (root ++ p1)) = true)
    (hindex : fs.files (index_path (abspath (root ++ p1))) = some content) :
    do_GET fs env root dateTime clientHost clientPort p1
        = do_GET fs env root dateTime clientHost clientPort p2 ∧
    do_GET fs env root dateTime clientHost clientPort p1
        = some ⟨200, mimeType (index_path (abspath (root ++ p1))), content⟩ := by
  obtain ⟨es, hd⟩ : ∃ es, fs.dirs (abspath (root ++ p1)) = some es := by
    rcases hds : fs.dirs (abspath (root ++ p1)) with _ | es
    · rw [isdir, hds] at hdir; cases hdir
    · exact ⟨es, rfl⟩
  have h1 : do_GET fs env root dateTime clientHost clientPort p1
      = some ⟨200, mimeType (index_path (abspath (root ++ p1))), content⟩ := by
    simp only [do_GET, if_neg hp1, hpre1, Bool.not_true, Bool.false_eq_true, if_false,
      runCases_CASES_eval, hnotfile, hd, hindex]
  have hpre2i : pyStartsWith (index_path (abspath (root ++ p1))) root = true := by
    rw [← hres2]; exact hpre2
  have h2 : do_GET fs env root dateTime clientHost clientPort p2
      = some ⟨200, mimeType (index_path (abspath (root ++ p1))), content⟩ := by
    simp only [do_GET, if_neg hp2, hres2, hpre2i, Bool.not_true, Bool.false_eq_true, if_false,
      runCases_CASES_eval, hindex]
  exact ⟨h1.trans h2.symm, h1⟩

/-- Witness for C7: requesting /d and /d/index.html produce the same
response, the index file's bytes at status 200. -/
theorem C7_directory_index_witness :
    do_GET fsC7 envQuiet "/srv" "dt" "h" 1 "/d"
        = do_GET fsC7 envQuiet "/srv" "dt" "h" 1 "/d/index.html" ∧
    do_GET fsC7 envQuiet "/srv" "dt" "h" 1 "/d"
        = some ⟨200, mimeType (index_path (abspath ("/srv" ++ "/d"))), [60]⟩ :=
  C7_directory_index fsC7 envQuiet "/srv" "dt" "h" 1 "/d" "/d/index.html" [60]
    (by decide) (by decide) (by decide) (by decide) (by decide) (by decide)
    (by decide) (by decide) (by decide)

/-- C1: the code violates the claim.  With server root "/srv" the request
path "/../srv2/x" canonicalizes to "/srv2/x", which is neither equal to
the root nor a descendant of it (it does not extend the root with a path
separator); yet the raw startswith prefix check in do_GET passes, the
case chain consults the filesystem and serves the file: the outcome is a
status-200 file read, not a TraversalError, and it depends on the
filesystem snapshot. -/
theorem C1_traversal_check_bug :
    abspath ("/srv" ++ "/../srv2/x") = "/srv2/x" ∧
    ("/srv2/x" == "/srv") = false ∧
    pyStartsWith "/srv2/x" ("/srv" ++ "/") = false ∧
    pyStartsWith "/srv2/x" "/srv" = true ∧
    do_GET fsC1 envQuiet "/srv" "dt" "h" 1 "/../srv2/x"
      = some ⟨200, "text/plain", [104, 105]⟩ ∧
    decide (do_GET fsC1 envQuiet "/srv" "dt" "h" 1 "/../srv2/x"
        = do_GET fsEmpty envQuiet "/srv" "dt" "h" 1 "/../srv2/x") = false :=
  ⟨by decide, by decide, by decide, by decide, by decide, by decide⟩

/-- C5 counterexample: the failure response for "/nope" on the empty
snapshot is an error page, but its body is not the single-line template
the claim spells out: the source template separates its elements with
newlines.  The second conjunct records the response actually produced. -/
theorem C5_counterexample :
    decide (do_GET fsEmpty envQuiet "/srv" "dt" "h" 1 "/nope"
      = some ⟨404, "text/html", encodeUtf8
          ("<html><head><title>Error accessing /nope</title></head><body><h1>Error accessing /nope</h1><p>\x27/nope\x27 not found</p></body></html>")⟩) = false ∧
    do_GET fsEmpty envQuiet "/srv" "dt" "h" 1 "/nope"
      = some (handle_error "/nope" ("\x27/nope\x27 not found") 404) :=
  ⟨by decide, by decide⟩

/-- C5 (amended): every per-request failure produces an HTML error
response whose body is the ERROR_PAGE template with its lines joined by
newlines, path and message substituted, Content-Type text/html; GET
always responds (nothing is swallowed and no fault escapes the handler),
resource/path failures carry status 404 (traversal, and every
ServerException from the chain), and POST processing failures carry
status 500. -/
theorem C5_error_responses :
    (∀ path msg status, handle_error path msg status
        = ⟨status, "text/html", encodeUtf8 (ERROR_PAGE path msg)⟩) ∧
    (∀ (fs : FileSystem) (env : CgiEnv) (root dateTime clientHost : String)
        (clientPort : Nat) (path : String),
        ∃ r, do_GET fs env root dateTime clientHost clientPort path = some r) ∧
    (∀ (fs : FileSystem) (env : CgiEnv) (root dateTime clientHost : String)
        (clientPort : Nat) (path : String),
        path ≠ "/" → pyStartsWith (abspath (root ++ path)) root = false →
        do_GET fs env root dateTime clientHost clientPort path
          = some (handle_error path "Attempted directory traversal" 404)) ∧
    (∀ (fs : FileSystem) (env : CgiEnv) (root dateTime clientHost : String)
        (clientPort : Nat) (path msg : String),
        path ≠ "/" → pyStartsWith (abspath (root ++ path)) root = true →
        runCases fs path (abspath (root ++ path)) CASES = some (ActResult.exn msg) →
        do_GET fs env root dateTime clientHost clientPort path
          = some (handle_error path msg 404)) ∧
    (∀ (path s : String) (rfile : Bytes), pyInt s = none →
        do_POST path (some s) rfile
          = handle_error path "Error processing POST: invalid literal for int()" 500) := by
  refine ⟨fun _ _ _ => rfl, ?_, ?_, ?_, ?_⟩
  · intro fs env root dateTime clientHost clientPort path
    rw [← Option.isSome_iff_exists]
    by_cases hp : path = "/"
    · simp [do_GET, hp]
    · cases hs : pyStartsWith (abspath (root ++ path)) root
      · simp [do_GET, hp, hs]
      · rcases hrun : runCases fs path (abspath (root ++ path)) CASES with _ | a
        · have := runCases_CASES_isSome fs path (abspath (root ++ path))
          rw [hrun] at this
          cases this
        · cases a <;> simp [do_GET, hp, hs, hrun]
  · intro fs env root dateTime clientHost clientPort path h1 h2
    simp [do_GET, h1, h2]
  · intro fs env root dateTime clientHost clientPort path msg h1 h2 h3
    simp [do_GET, h1, h2, h3]
  · intro path s rfile h
    simp [do_POST, h]

/-- Witness for C5: a traversal failure renders the 404 template page and
an unparsable POST Content-Length renders the 500 template page. -/
theorem C5_error_responses_witness :
    do_GET fsEmpty envQuiet "/srv" "dt" "h" 1 "/../../etc/x"
        = some (handle_error "/../../etc/x" "Attempted directory traversal" 404) ∧
    do_POST "/p" (some "abc") [1]
        = handle_error "/p" "Error processing POST: invalid literal for int()" 500 :=
  ⟨C5_error_responses.2.2.1 fsEmpty envQuiet "/srv" "dt" "h" 1 "/../../etc/x"
     (by decide) (by decide),
   C5_error_responses.2.2.2.2 "/p" "abc" [1] (by decide)⟩

/-- C8: a POST whose Content-Length header equals the length of the body
bytes at the head of the connection stream responds with status 200,
Content-Type text/plain, and body "Received: " followed by the body. -/
theorem C8_post_echo (path s : String) (b rest : Bytes)
    (hlen : pyInt s = some (b.length : Int)) :
    do_POST path (some s) (b ++ rest)
      = ⟨200, "text/plain", encodeUtf8 "Received: " ++ b⟩ := by
  simp only [do_POST, hlen, readBytes]
  rw [if_neg (Int.not_lt.mpr (Int.ofNat_zero_le _))]
  have ht : ((b.length : Int)).toNat = b.length := rfl
  rw [ht, List.take_left]

/-- Witness for C8: POST with body "hello" yields body "Received: hello". -/
theorem C8_post_echo_witness :
    do_POST "/echo" (some "5") (encodeUtf8 "hello" ++ [])
        = ⟨200, "text/plain", encodeUtf8 "Received: " ++ encodeUtf8 "hello"⟩ ∧
    encodeUtf8 "Received: " ++ encodeUtf8 "hello" = encodeUtf8 "Received: hello" :=
  ⟨C8_post_echo "/echo" "5" (encodeUtf8 "hello") [] (by decide), by decide⟩

/-- C10: a POST with no Content-Length header, or one whose value parses
to zero, reads no body bytes and succeeds with status 200 and body
exactly "Received: ". -/
theorem C10_post_no_content_length (path : String) (stream : Bytes) :
    do_POST path none stream = ⟨200, "text/plain", encodeUtf8 "Received: "⟩ ∧
    (∀ s, pyInt s = some 0 →
        do_POST path (some s) stream = ⟨200, "text/plain", encodeUtf8 "Received: "⟩) := by
  constructor
  · simp [do_POST, readBytes]
  · intro s hs
    simp [do_POST, hs, readBytes]

/-- Witness for C10: a POST with Content-Length "0" and a nonempty stream
returns body "Received: " alone. -/
theorem C10_post_no_content_length_witness :
    do_POST "/p" (some "0") [9, 9] = ⟨200, "text/plain", encodeUtf8 "Received: "⟩ :=
  (C10_post_no_content_length "/p" [9, 9]).2 "0" (by decide)

end PyServer
